/-
Verification of the pre-order CSV ingestion script
(src/wix_preorder_ingestion.py) against its natural-language
specification.

The script is shallowly embedded below.  Python strings that may be
`None` are modelled as `String` with `""` standing for both `None` and
the empty string: everywhere the script uses such values it only tests
their truthiness (`x or y`, `if x:`), for which `None` and `""` agree.
Python's string methods (`strip`, `lower`, `split`, ...) are modelled by
structural functions over the character list, so every definition is
executable by the kernel; they agree with Python on ASCII text (the
NFKD-then-ASCII-ignore folding of `slugify`/`normalize_name` is modelled
as dropping non-ASCII characters).
Prices are modelled as exact rationals; `round(x, 2)` is modelled as
rounding `100 * x` to the nearest integer (ties rounded half-up by
Mathlib's `round`; the script's float rounding at exact ties depends on
the binary representation, and no property below depends on a tie).
Network transport, file IO and HTML scraping are external collaborators:
the scraping result is an input (`Scraped`), and the remote platform's
answer to the one create call the script performs per row is an input
(`CreateResult`).  The remote mutations the script issues are reified as
an `Effect` list so that frame properties ("no mutation is performed")
are statable.
-/
import Mathlib

namespace WixPreorder

/-! ### Structural string primitives

Kernel-computable models of the Python string methods the script uses.
They operate on the underlying character list and agree with the Python
methods on ASCII strings. -/

/-- Python's `a or b` for the string-or-None values of the script
(`""` models both `None` and the empty string). -/
def strOr (a b : String) : String := if a = "" then b else a

/-- `str.strip()`: drop whitespace from both ends. -/
def strTrim (s : String) : String :=
  String.mk
    (((s.data.dropWhile Char.isWhitespace).reverse.dropWhile
      Char.isWhitespace).reverse)

/-- `str.lower()` (ASCII). -/
def strLower (s : String) : String := String.mk (s.data.map Char.toLower)

/-- `str.upper()` (ASCII). -/
def strUpper (s : String) : String := String.mk (s.data.map Char.toUpper)

/-- `str.startswith(pre)`. -/
def strStarts (s pre : String) : Bool := pre.data.isPrefixOf s.data

/-- `str.endswith(suf)`. -/
def strEnds (s suf : String) : Bool := suf.data.isSuffixOf s.data

/-- `s[:-n]`. -/
def strDropRight (s : String) (n : Nat) : String :=
  String.mk (s.data.take (s.data.length - n))

/-- Split a character list at every character satisfying `p`
(like `str.split(c)`: the separators are consumed, empty pieces are
kept). -/
def splitBy (p : Char → Bool) : List Char → List (List Char)
  | [] => [[]]
  | c :: cs =>
      let r := splitBy p cs
      if p c then [] :: r
      else
        match r with
        | [] => [[c]]
        | h :: t => (c :: h) :: t

/-- `str.split(c)` for a one-character separator. -/
def strSplitChar (c : Char) (s : String) : List String :=
  (splitBy (· = c) s.data).map String.mk

/-- `str.split()` with no argument: whitespace-separated fields, empty
pieces dropped. -/
def strFields (s : String) : List String :=
  ((splitBy Char.isWhitespace s.data).map String.mk).filter (· ≠ "")

/-- `sep.join(pieces)`. -/
def joinSep (sep : String) : List String → String
  | [] => ""
  | [x] => x
  | x :: xs => x ++ sep ++ joinSep sep xs

/-- `int(s)` on an all-digit string, `none` otherwise. -/
def strToNat? (s : String) : Option Nat :=
  if s.data ≠ [] ∧ s.data.all Char.isDigit then
    some (s.data.foldl (fun n c => 10 * n + (c.toNat - 48)) 0)
  else none

/-! ### Constants and utilities of the script -/

/-- Constants from the top of the script (lines 10-12). -/
def OPTION_NAME : String := "PREORDER PAYMENTS OPTIONS*"

def CHOICE_DEPOSIT : String := "ANTICIPO/SALDO"

def CHOICE_FULLPAY : String := "PAGAMENTO ANTICIPATO"

/-- `CATEGORY_ALIASES` (lines 15-21), as an association list in the
source's order. -/
def CATEGORY_ALIASES : List (String × String) :=
  [("statue", "Statue da collezione"),
   ("statua", "Statue da collezione"),
   ("statue da collezione", "Statue da collezione"),
   ("action figures", "Action Figures da Collezione"),
   ("repliche", "Repliche Cinematografiche")]

/-- Python's `float` on the decimal strings the CSV carries, after the
script's `.replace(",", ".")` (line 354).  Plain decimal forms
`d+`, `d+.d*`, `.d+`, `d+.d+` are parsed; anything else fails, as
`float` raises (signs and exponent forms never appear in the price
column and are not modelled: a failed parse skips the row exactly as a
non-positive price would). -/
def parseDecimal (s0 : String) : Option ℚ :=
  let s := strTrim (String.mk (s0.data.map (fun c => if c = ',' then '.' else c)))
  match strSplitChar '.' s with
  | [a] => (strToNat? a).map (fun n => (n : ℚ))
  | [a, b] =>
      if a = "" ∧ b = "" then none
      else
        match (if a = "" then some 0 else strToNat? a),
              (if b = "" then some 0 else strToNat? b) with
        | some x, some y => some ((x : ℚ) + (y : ℚ) / (10 : ℚ) ^ b.length)
        | _, _ => none
  | _ => none

/-- `round(x, 2)` of the script, over exact rationals. -/
def round2 (x : ℚ) : ℚ := ((round (x * 100) : ℤ) : ℚ) / 100

/-- `compute_prices` (lines 42-46): `deposito = round(base * 0.30, 2)`,
`anticipato = round(base * 0.95, 2)`.  `0.30 = 3/10`, `0.95 = 19/20`. -/
def compute_prices (base : ℚ) : ℚ × ℚ :=
  (round2 (base * (3 / 10)), round2 (base * (19 / 20)))

/-- `to_float_kg`'s regex fallback, one token: `"3.5kg"` or `"700g"`. -/
def kgToken (w : String) : Option ℚ :=
  if strEnds w "kg" then parseDecimal (strDropRight w 2)
  else if strEnds w "g" then (parseDecimal (strDropRight w 1)).map (· / 1000)
  else none

/-- `to_float_kg`'s regex fallback over the whitespace-separated tokens:
a number directly followed by its unit, or a number token followed by a
unit token. -/
def kgScan : List String → Option ℚ
  | [] => none
  | [w] => kgToken w
  | w1 :: w2 :: rest =>
      if w2 = "kg" then parseDecimal w1
      else if w2 = "g" then (parseDecimal w1).map (· / 1000)
      else
        match kgToken w1 with
        | some v => some v
        | none => kgScan (w2 :: rest)

/-- `to_float_kg` (lines 29-40): try `float` on the comma-fixed string;
on failure, the regex fallback looks for a number with a `kg`/`g`
unit (grams are divided by 1000). -/
def to_float_kg (s0 : String) : Option ℚ :=
  let s := strTrim s0
  if s = "" then none
  else
    match parseDecimal s with
    | some v => some v
    | none => kgScan (strFields s)

/-- One step of `slugify`'s `re.sub(r"[^a-zA-Z0-9]+", "-", s)`: runs of
non-alphanumeric characters become a single dash. -/
def dashStep (acc : List Char) (c : Char) : List Char :=
  if c.isAlphanum then c :: acc
  else
    match acc with
    | '-' :: _ => acc
    | _ => '-' :: acc

/-- `slugify` (lines 24-27) for ASCII input: runs of non-alphanumeric
characters become a single `-`, dashes are stripped from the ends, the
result is lowercased and truncated to 80 characters, with fallback
`"articolo"`. -/
def slugify (s : String) : String :=
  let ascii := s.data.filter (fun c => c.toNat < 128)
  let dashed := (ascii.foldl dashStep []).reverse
  let stripped := ((dashed.dropWhile (· = '-')).reverse.dropWhile (· = '-')).reverse
  let cut := String.mk ((stripped.map Char.toLower).take 80)
  if cut = "" then "articolo" else cut

/-- `normalize_name` (lines 62-66) for ASCII input: collapse whitespace
runs to single spaces, strip, lowercase. -/
def normalizeName (s : String) : String :=
  let ascii := s.data.filter (fun c => c.toNat < 128)
  strLower (joinSep " " (((splitBy Char.isWhitespace ascii).map String.mk).filter (· ≠ "")))

/-- The alias application performed on the resolver's target
(line 295): `CATEGORY_ALIASES.get(name.strip().lower(), name).strip()`. -/
def aliasTarget (name : String) : String :=
  strTrim ((CATEGORY_ALIASES.lookup (strLower (strTrim name))).getD name)

/-- `find_category_or_collection_id` (lines 293-308), over the combined
collections-plus-categories list as `(name, id)` pairs.  Strategy one:
first item whose normalized stripped name equals the normalized target.
Strategy two ("ultimo tentativo", line 303): first item whose normalized
stripped name starts with the normalized target. -/
def find_category_or_collection_id
    (items : List (String × String)) (name : String) : Option String :=
  if name = "" then none
  else
    match items.find?
        (fun c => normalizeName (strTrim c.1) = normalizeName (aliasTarget name)) with
    | some c => some c.2
    | none =>
        (items.find?
          (fun c => strStarts (normalizeName (strTrim c.1))
            (normalizeName (aliasTarget name)))).map
          Prod.snd

/-- Substring test used by the spec-side resolver model. -/
def strContains (hay needle : String) : Bool :=
  hay.data.tails.any (fun t => needle.data.isPrefixOf t)

/-- Modelled from the spec: the Category Resolver of §4.4 as the spec
words it — three ordered strategies: (1) exact case-insensitive match,
(2) match after stripping all whitespace from both sides,
(3) substring match in either direction.  Written only to be compared
with `find_category_or_collection_id`, the resolver the source actually
implements. -/
def resolveCategorySpec
    (items : List (String × String)) (name : String) : Option String :=
  match items.find? (fun c => strLower c.1 = strLower name) with
  | some c => some c.2
  | none =>
      match items.find?
          (fun c => strLower (strTrim c.1) = strLower (strTrim name)) with
      | some c => some c.2
      | none =>
          (items.find? (fun c =>
            strContains (strLower c.1) (strLower name) ||
            strContains (strLower name) (strLower c.1))).map Prod.snd

/-- `parse_image_list_field` (lines 319-322). -/
def parse_image_list_field (s : String) : List String :=
  if s = "" then []
  else ((strSplitChar '|' s).map strTrim).filter (fun p => strStarts p "http")

/-- The description-header lines built in `main` (lines 383-387):
an "Uscita prevista" line when an ETA is present, then a
"Chiusura preordine" line when a deadline is present. -/
def headerLines (eta deadline : String) : List String :=
  (if eta ≠ "" then ["Uscita prevista: " ++ eta] else []) ++
  (if deadline ≠ "" then
    ["Chiusura preordine : " ++ deadline ++ " Salvo esaurimento"] else [])

def headerBlock (eta deadline : String) : String :=
  joinSep "\n" (headerLines eta deadline)

/-- The description composition of `main` (lines 383-390): when any
header line exists, the header block is joined to the body with
`"\n\n"`; otherwise the body is returned unchanged. -/
def composeDescription (eta deadline body : String) : String :=
  if headerLines eta deadline = [] then body
  else headerBlock eta deadline ++ "\n\n" ++ body

/-! ### JSON-like payload values

For `prune` (lines 48-60) and `wix_request` (lines 240-251).  The
nesting through lists is expressed with mutual inductives so that
structural induction is available. -/

mutual
inductive J where
  | null : J
  | bool (b : Bool) : J
  | num (q : ℚ) : J
  | str (s : String) : J
  | arr (xs : JList) : J
  | obj (kvs : JObj) : J
inductive JList where
  | nil : JList
  | cons (hd : J) (tl : JList) : JList
inductive JObj where
  | nil : JObj
  | cons (k : String) (v : J) (tl : JObj) : JObj
end

/-- The membership test `pv in (None, "", {}, [])` of `prune`
(lines 53, 59): exactly `None`, the empty string, the empty dict and the
empty list compare equal to one of the tuple's members. -/
def isEmptyVal : J → Bool
  | .null => true
  | .str "" => true
  | .arr .nil => true
  | .obj .nil => true
  | _ => false

mutual
/-- `prune` (lines 48-60): recursively drop dict entries and list
elements whose pruned value is `None`, `""`, `{}` or `[]`; atoms are
returned unchanged. -/
def prune : J → J
  | .obj kvs => .obj (pruneObj kvs)
  | .arr xs => .arr (pruneList xs)
  | x => x
def pruneObj : JObj → JObj
  | .nil => .nil
  | .cons k v tl =>
      let pv := prune v
      if isEmptyVal pv then pruneObj tl else .cons k pv (pruneObj tl)
def pruneList : JList → JList
  | .nil => .nil
  | .cons v tl =>
      let pv := prune v
      if isEmptyVal pv then pruneList tl else .cons pv (pruneList tl)
end

mutual
/-- `true` when no dict value and no list element anywhere inside the
value is `None`, `""`, `{}` or `[]`. -/
def cleanJ : J → Bool
  | .obj kvs => cleanObj kvs
  | .arr xs => cleanList xs
  | _ => true
def cleanObj : JObj → Bool
  | .nil => true
  | .cons _ v tl => !isEmptyVal v && cleanJ v && cleanObj tl
def cleanList : JList → Bool
  | .nil => true
  | .cons v tl => !isEmptyVal v && cleanJ v && cleanList tl
end

/-- The body `wix_request` serializes (lines 240-243):
`json.dumps(prune(payload)) if payload is not None else None` — the
HTTP transport and headers are external and not modelled. -/
def wix_request_body (payload : Option J) : Option J := payload.map prune

/-! ### The row-processing loop of `main` (lines 347-469) -/

/-- One normalized CSV record as `read_rows` yields it (lines 80-86):
lowercased, stripped column names mapped to stripped values; an absent
column and an empty value are both `""`. -/
structure Row where
  nome_articolo : String := ""
  name : String := ""
  url_produttore : String := ""
  link_al_sito_del_produttore : String := ""
  prezzo_eur : String := ""
  prezzo : String := ""
  sku : String := ""
  peso_kg : String := ""
  descrizione : String := ""
  brand : String := ""
  categoria : String := ""
  preorder_scadenza : String := ""
  eta : String := ""
  immagini_urls : String := ""
  visibile_online : String := ""
  tipo_articolo : String := ""
deriving DecidableEq, Repr

/-- The row filter of `read_rows` (line 83): a record with none of
`nome_articolo`, `prezzo_eur`, `url_produttore` is dropped silently. -/
def read_rows_keep (r : Row) : Bool :=
  r.nome_articolo ≠ "" || r.prezzo_eur ≠ "" || r.url_produttore ≠ ""

def read_rows (rows : List Row) : List Row := rows.filter read_rows_keep

/-- What `fetch_from_page` scraped from the manufacturer page — an
external collaborator, so an input of the model (`""`/`none` = nothing
found). -/
structure Scraped where
  description : String := ""
  eta : String := ""
  deadline : String := ""
  sku : String := ""
  weight_kg : Option ℚ := none
  images : List String := []
deriving DecidableEq, Repr

/-- The remote platform's answer to `create_product_v1`: either a
response carrying `product.id` (or not), or an HTTP-level failure that
`wix_request` raises (line 245). -/
inductive CreateResult where
  | success (pid : Option String) : CreateResult
  | failure (msg : String) : CreateResult
deriving DecidableEq, Repr

/-- The variant dicts built at lines 416-425. -/
structure Variant where
  choice : String
  price : ℚ
  sku : Option String := none
  weight : Option ℚ := none
deriving DecidableEq, Repr

/-- The `product` payload dict built at lines 394-425. -/
structure Product where
  name : String
  slug : String
  visible : Bool
  productType : String
  description : String
  price : ℚ
  brand : Option String
  mediaItems : List String
  ribbon : Option String
  manageVariants : Bool
  optionName : Option String
  optionChoices : List String
  variants : List Variant
deriving DecidableEq, Repr

/-- The remote calls the script can issue while processing rows.
`locateProduct` is in the vocabulary so that "no product lookup is
performed" is statable: the script never issues one (it has no
product-query-by-SKU call anywhere in the row loop). -/
inductive Effect where
  | locateProduct (sku : String) : Effect
  | createProduct (p : Product) : Effect
  | addMedia (pid : String) (urls : List String) : Effect
  | addToCollection (cid pid : String) : Effect
deriving DecidableEq, Repr

def Effect.isLocate : Effect → Bool
  | .locateProduct _ => true
  | _ => false

/-- The per-row outcome, in the spec's `SyncResult` taxonomy:
`created` = the "[OK] ... creato prodotto" line (444), `skipped` = the
validation/dry-run `continue`s (lines 352, 358, 433), `failed` = the
create error paths (lines 443, 449).  The script has no update path;
`updated` is in the vocabulary so that its absence is statable. -/
inductive SyncResult where
  | created (id : String) : SyncResult
  | updated (id : String) : SyncResult
  | skipped (reason : String) : SyncResult
  | failed (reason : String) : SyncResult
deriving DecidableEq, Repr

def isCreated : SyncResult → Bool
  | .created _ => true
  | _ => false

def isSkipped : SyncResult → Bool
  | .skipped _ => true
  | _ => false

/-- `re.match(r"^https?://", urlp or "")` at line 350, over
`urlp = r.get("url_produttore") or r.get("link_al_sito_del_produttore")`
(line 349). -/
def urlValid (row : Row) : Bool :=
  let urlp := strOr row.url_produttore row.link_al_sito_del_produttore
  strStarts urlp "http://" || strStarts urlp "https://"

/-- The price expression of line 354:
`float((r.get("prezzo_eur") or r.get("prezzo") or "0").replace(",", "."))`. -/
def priceParsed (row : Row) : Option ℚ :=
  parseDecimal (strOr row.prezzo_eur (strOr row.prezzo "0"))

/-- Lines 354-355 succeed exactly when the price parses and is
positive (`assert price > 0`). -/
def priceOk (row : Row) : Bool :=
  match priceParsed row with
  | some p => decide (0 < p)
  | none => false

/-- The images list of line 380
(`images_from_csv or scraped.get("images") or []`). -/
def rowImages (row : Row) (scraped : Scraped) : List String :=
  match parse_image_list_field row.immagini_urls with
  | [] => scraped.images
  | l => l

/-- The category value of lines 364-365 (alias applied then stripped). -/
def rowCategoria (row : Row) : String :=
  strTrim ((CATEGORY_ALIASES.lookup (strLower (strTrim row.categoria))).getD
    row.categoria)

/-- The `product` dict assembled at lines 360-425 from the row, the
scraped page and the parsed price. -/
def buildProduct (row : Row) (scraped : Scraped) (price : ℚ) : Product :=
  let name := strOr row.nome_articolo row.name
  let sku := strOr row.sku scraped.sku
  let peso := match to_float_kg row.peso_kg with
    | some w => some w
    | none => scraped.weight_kg
  let descr0 := strOr row.descrizione (strOr scraped.description name)
  let deadline := strOr row.preorder_scadenza scraped.deadline
  let eta := strOr row.eta scraped.eta
  let visible := strUpper (strTrim (strOr row.visibile_online "SI")) ≠ "NO"
  let tipo := strUpper (strTrim (strOr row.tipo_articolo "PREORDER"))
  let isPre := tipo = "PREORDER"
  let descr := composeDescription eta deadline descr0
  let slug :=
    if sku ≠ "" then slugify name ++ "-" ++ strLower sku else slugify name
  { name := name
    slug := slug
    visible := visible
    productType := "physical"
    description := descr
    price := price
    brand := if row.brand = "" then none else some row.brand
    mediaItems :=
      ((rowImages row scraped).take 10).filter (fun u => strStarts u "http")
    ribbon := if isPre then some "PREORDINE" else none
    manageVariants := isPre
    optionName := if isPre then some OPTION_NAME else none
    optionChoices := if isPre then [CHOICE_DEPOSIT, CHOICE_FULLPAY] else []
    variants :=
      if isPre then
        let pair := compute_prices price
        [{ choice := CHOICE_DEPOSIT, price := pair.1,
           sku := if sku ≠ "" then some (sku ++ "-DEP") else none,
           weight := peso },
         { choice := CHOICE_FULLPAY, price := pair.2,
           sku := if sku ≠ "" then some (sku ++ "-FULL") else none,
           weight := peso }]
      else [] }

/-- Lines 360-469 for an already-validated row: the dry-run check
(lines 431-433), the create call with its three outcomes (436-449), the
media fallback (452-456, with `add_media_v1`'s own filtering, lines
266-274) and the category assignment (459-467). -/
def processValidRow (dry : Bool) (catalog : List (String × String))
    (row : Row) (scraped : Scraped) (createRes : CreateResult)
    (price : ℚ) : List Effect × SyncResult :=
  let product := buildProduct row scraped price
  if dry then ([], .skipped "dry-run: nessuna creazione")
  else
    match createRes with
    | .failure msg => ([.createProduct product], .failed msg)
    | .success none =>
        ([.createProduct product], .failed "risposta senza product.id")
    | .success (some pid) =>
        let urls := (rowImages row scraped).filter (fun u => strStarts u "http")
        let mediaFx :=
          if urls.isEmpty then [] else [Effect.addMedia pid (urls.take 20)]
        let categoria := rowCategoria row
        let catFx :=
          if categoria ≠ "" then
            match find_category_or_collection_id catalog categoria with
            | some cid => [Effect.addToCollection cid pid]
            | none => []
          else []
        (Effect.createProduct product :: (mediaFx ++ catFx), .created pid)

/-- One iteration of the row loop (lines 347-469): URL validation
(lines 348-352), price validation (lines 353-358), then the
validated-row body. -/
def processRow (dry : Bool) (catalog : List (String × String))
    (row : Row) (scraped : Scraped) (createRes : CreateResult) :
    List Effect × SyncResult :=
  if ¬ urlValid row then ([], .skipped "url_produttore non valido")
  else
    match priceParsed row with
    | none => ([], .skipped "prezzo non valido")
    | some price =>
        if price ≤ 0 then ([], .skipped "prezzo non valido")
        else processValidRow dry catalog row scraped createRes price

/-- The whole loop: one outcome per surviving row; the scrape result
and the remote's answer for each row are inputs. -/
def runBatch (dry : Bool) (catalog : List (String × String))
    (inputs : List (Row × Scraped × CreateResult)) :
    List (List Effect × SyncResult) :=
  inputs.map (fun t => processRow dry catalog t.1 t.2.1 t.2.2)

def countCreated (results : List (List Effect × SyncResult)) : Nat :=
  (results.filter (fun r => isCreated r.2)).length

/-- The process-level configuration `main` reads (lines 329-332). -/
structure Env where
  apiKey : String
  siteId : String
  dry : Bool
  skipPre : Bool
  precheckOk : Bool
deriving DecidableEq, Repr

/-- The exit code of `main`: `1` on missing credentials (line 336), `3`
on a failed precheck (line 341), `2` when nothing was created outside a
dry run (lines 474-476), `0` otherwise (falling off the end of
`main`). -/
def mainExit (env : Env) (catalog : List (String × String))
    (inputs : List (Row × Scraped × CreateResult)) : Nat :=
  if strTrim env.apiKey = "" ∨ strTrim env.siteId = "" then 1
  else if ¬ env.skipPre ∧ ¬ env.precheckOk then 3
  else
    let results := runBatch env.dry catalog inputs
    if countCreated results = 0 ∧ ¬ env.dry then 2 else 0

/-- Every mutating remote call a run issues: none before the loop (the
precheck is a read-only query), then each row's effects in order. -/
def mainEffects (env : Env) (catalog : List (String × String))
    (inputs : List (Row × Scraped × CreateResult)) : List Effect :=
  if strTrim env.apiKey = "" ∨ strTrim env.siteId = "" then []
  else if ¬ env.skipPre ∧ ¬ env.precheckOk then []
  else ((runBatch env.dry catalog inputs).map Prod.fst).flatten

def isUpdated : SyncResult → Bool
  | .updated _ => true
  | _ => false

/-! ### Concrete fixtures (the spec's end-to-end scenarios) -/

/-- Scenario A's row: `{name:"Statue X", sku:"ABC-1", basePrice:100.00}`
with a well-formed manufacturer URL. -/
def rowStatue : Row :=
  { nome_articolo := "Statue X", url_produttore := "https://example.com/p",
    prezzo_eur := "100", sku := "ABC-1" }

/-- A row with a valid URL and price but no SKU and no name in either
name column. -/
def rowNoSkuNoName : Row :=
  { url_produttore := "https://example.com/x", prezzo_eur := "10" }

/-- An empty scrape result (the manufacturer page yielded nothing). -/
def emptyScrape : Scraped := {}

/-- A dry-run environment with credentials present and the precheck
skipped. -/
def envDry : Env :=
  { apiKey := "key", siteId := "site", dry := true, skipPre := true,
    precheckOk := true }

/-- A live (non-dry) environment with credentials present and the
precheck passing. -/
def envLive : Env :=
  { apiKey := "key", siteId := "site", dry := false, skipPre := true,
    precheckOk := true }

/-- A small JSON payload with no empty members, for the prune
preservation witness. -/
def samplePayload : J :=
  .obj (.cons "product"
    (.obj (.cons "name" (.str "Statue X")
      (.cons "priceData" (.obj (.cons "price" (.num 100) .nil)) .nil)))
    .nil)

/-! ### Helper lemmas -/

/-- In a dry run a row issues no remote call at all. -/
theorem processRow_dry_no_effects (catalog : List (String × String))
    (row : Row) (scraped : Scraped) (res : CreateResult) :
    (processRow true catalog row scraped res).1 = [] := by
  unfold processRow processValidRow
  repeat' split
  all_goals simp_all

/-- In a dry run no row's outcome is `created`. -/
theorem processRow_dry_not_created (catalog : List (String × String))
    (row : Row) (scraped : Scraped) (res : CreateResult) :
    isCreated (processRow true catalog row scraped res).2 = false := by
  unfold processRow processValidRow
  repeat' split
  all_goals simp_all [isCreated]

/-- Every string is a prefix of itself. -/
theorem strStarts_refl (s : String) : strStarts s s = true := by
  simp [strStarts, List.isPrefixOf_iff_prefix]

/-- No row of a dry-run batch contributes any effect. -/
theorem runBatch_dry_no_effects (catalog : List (String × String))
    (inputs : List (Row × Scraped × CreateResult)) :
    ((runBatch true catalog inputs).map Prod.fst).flatten = [] := by
  induction inputs with
  | nil => simp [runBatch]
  | cons t ts ih =>
      simp only [runBatch, List.map_cons, List.flatten_cons] at *
      rw [processRow_dry_no_effects]
      simpa using ih

mutual
/-- After pruning, no member anywhere is an empty value. -/
theorem cleanJ_prune (j : J) : cleanJ (prune j) = true := by
  cases j with
  | obj kvs => simpa [prune, cleanJ] using cleanObj_pruneObj kvs
  | arr xs => simpa [prune, cleanJ] using cleanList_pruneList xs
  | null => simp [prune, cleanJ]
  | bool b => simp [prune, cleanJ]
  | num q => simp [prune, cleanJ]
  | str s => simp [prune, cleanJ]
theorem cleanObj_pruneObj (kvs : JObj) : cleanObj (pruneObj kvs) = true := by
  cases kvs with
  | nil => simp [pruneObj, cleanObj]
  | cons k v tl =>
      rw [pruneObj]
      by_cases h : isEmptyVal (prune v) = true
      · simp only [h, if_true]
        exact cleanObj_pruneObj tl
      · simp only [h, if_false]
        simp [cleanObj, h, cleanJ_prune v, cleanObj_pruneObj tl]
theorem cleanList_pruneList (xs : JList) : cleanList (pruneList xs) = true := by
  cases xs with
  | nil => simp [pruneList, cleanList]
  | cons v tl =>
      rw [pruneList]
      by_cases h : isEmptyVal (prune v) = true
      · simp only [h, if_true]
        exact cleanList_pruneList tl
      · simp only [h, if_false]
        simp [cleanList, h, cleanJ_prune v, cleanList_pruneList tl]
end

mutual
/-- Pruning preserves a value with no empty members. -/
theorem prune_of_cleanJ (j : J) (h : cleanJ j = true) : prune j = j := by
  cases j with
  | obj kvs => rw [prune, prune_obj_of_clean kvs (by simpa [cleanJ] using h)]
  | arr xs => rw [prune, prune_list_of_clean xs (by simpa [cleanJ] using h)]
  | null => rfl
  | bool b => rfl
  | num q => rfl
  | str s => rfl
theorem prune_obj_of_clean (kvs : JObj) (h : cleanObj kvs = true) :
    pruneObj kvs = kvs := by
  cases kvs with
  | nil => rfl
  | cons k v tl =>
      simp only [cleanObj, Bool.and_eq_true, Bool.not_eq_true'] at h
      rw [pruneObj]
      rw [prune_of_cleanJ v h.1.2]
      rw [prune_obj_of_clean tl h.2]
      simp [h.1.1]
theorem prune_list_of_clean (xs : JList) (h : cleanList xs = true) :
    pruneList xs = xs := by
  cases xs with
  | nil => rfl
  | cons v tl =>
      simp only [cleanList, Bool.and_eq_true, Bool.not_eq_true'] at h
      rw [pruneList]
      rw [prune_of_cleanJ v h.1.2]
      rw [prune_list_of_clean tl h.2]
      simp [h.1.1]
end

/-! ### C1 — second run of the same SKU -/

/-- C1 counterexample.  The claim says a second run on the same row
finds the existing product by SKU and ends `Updated`.  The script has no
lookup and no update path: the first run on scenario A's row ends
`Created`; a second run attempts another create, and when the remote
rejects the duplicate SKU the row ends `Failed`, not `Updated`. -/
theorem second_run_same_sku_ends_failed_not_updated :
    (processRow false [] rowStatue emptyScrape
      (.success (some "p1"))).2 = SyncResult.created "p1" ∧
    (processRow false [] rowStatue emptyScrape
      (.failure "duplicate SKU")).2 = SyncResult.failed "duplicate SKU" ∧
    isUpdated (processRow false [] rowStatue emptyScrape
      (.failure "duplicate SKU")).2 = false := by
  refine ⟨?_, ?_, ?_⟩ <;>
    simp +decide [processRow, processValidRow, urlValid, priceParsed,
      parseDecimal, strOr, strTrim, strSplitChar, splitBy, strToNat?,
      strStarts, rowStatue, emptyScrape, isUpdated]

/-- C1 amended: a second run on a row does not locate the existing
product and never takes an update path — the loop's outcome is never
`Updated` for any row, scrape result or remote answer; re-running a row
re-attempts creation (ending `Created` again, or `Failed` if the remote
rejects the duplicate). -/
theorem processRow_never_updated (dry : Bool)
    (catalog : List (String × String)) (row : Row) (scraped : Scraped)
    (res : CreateResult) (id : String) :
    (processRow dry catalog row scraped res).2 ≠ SyncResult.updated id := by
  unfold processRow processValidRow
  repeat' split
  all_goals simp_all

/-! ### C2 — duplicate-key create failure -/

/-- C2 counterexample.  The claim says a duplicate-natural-key create
failure triggers exactly one locator re-run, ending `Updated` when the
product is found.  The script performs no product lookup at all on that
path and marks the row `Failed` immediately. -/
theorem duplicate_sku_failure_no_lookup_row_failed :
    ((processRow false [] rowStatue emptyScrape
      (.failure "duplicate SKU")).1.any Effect.isLocate) = false ∧
    (processRow false [] rowStatue emptyScrape
      (.failure "duplicate SKU")).1.length = 1 := by
  constructor <;>
    simp +decide [processRow, processValidRow, urlValid, priceParsed,
      parseDecimal, strOr, strTrim, strSplitChar, splitBy, strToNat?,
      strStarts, rowStatue, emptyScrape, Effect.isLocate]

/-- C2 amended: on any create failure (the duplicate-SKU message
included) the script re-runs no locator — no product lookup is ever
issued — and a validated row ends `Failed` with the remote's message;
there is no path from a create failure to `Updated`. -/
theorem create_failure_fails_row_without_locator (dry : Bool)
    (catalog : List (String × String)) (row : Row) (scraped : Scraped)
    (msg : String) (p : ℚ) :
    ((processRow dry catalog row scraped (.failure msg)).1.any
      Effect.isLocate) = false ∧
    (urlValid row = true → priceParsed row = some p → 0 < p →
      dry = false →
      (processRow dry catalog row scraped (.failure msg)).2 =
        SyncResult.failed msg) := by
  constructor
  · unfold processRow processValidRow
    repeat' split
    all_goals simp_all [Effect.isLocate]
  · intro hu hp hpos hdry
    subst hdry
    simp only [processRow, hu, not_true_eq_false, if_false]
    rw [hp]
    show (if p ≤ 0 then ([], SyncResult.skipped "prezzo non valido")
      else processValidRow false catalog row scraped
        (CreateResult.failure msg) p).2 = SyncResult.failed msg
    rw [if_neg (not_le.mpr hpos)]
    simp [processValidRow]

/-- Witness for the amended C2 theorem at scenario A's row. -/
theorem create_failure_fails_row_without_locator_witness :
    ((processRow false [] rowStatue emptyScrape
      (.failure "dup")).1.any Effect.isLocate) = false ∧
    (processRow false [] rowStatue emptyScrape (.failure "dup")).2 =
      SyncResult.failed "dup" := by
  have h := create_failure_fails_row_without_locator false [] rowStatue
    emptyScrape "dup" 100
  refine ⟨h.1, h.2 (by decide) ?_ (by norm_num) rfl⟩
  norm_num [priceParsed, parseDecimal, strOr, strTrim, strSplitChar,
    splitBy, strToNat?, rowStatue]
  rfl

/-! ### C3 — derived prices -/

/-- C3: for a positive base price, the deriver returns exactly
`base * 0.30` and `base * 0.95` rounded to the nearest cent (each an
integer number of cents, i.e. two decimals), and the product payload
retains the unmodified base price as its reference price. -/
theorem compute_prices_rounds_and_retains_base (row : Row)
    (scraped : Scraped) (base : ℚ) (hpos : 0 < base) :
    (compute_prices base).1 = ((round (30 * base) : ℤ) : ℚ) / 100 ∧
    (compute_prices base).2 = ((round (95 * base) : ℤ) : ℚ) / 100 ∧
    (∃ d : ℤ, (compute_prices base).1 = (d : ℚ) / 100) ∧
    (∃ a : ℤ, (compute_prices base).2 = (a : ℚ) / 100) ∧
    (buildProduct row scraped base).price = base := by
  have e1 : base * (3 / 10) * 100 = 30 * base := by ring
  have e2 : base * (19 / 20) * 100 = 95 * base := by ring
  refine ⟨?_, ?_, ⟨round (30 * base), ?_⟩, ⟨round (95 * base), ?_⟩, ?_⟩
  · unfold compute_prices round2
    rw [e1]
  · unfold compute_prices round2
    rw [e2]
  · unfold compute_prices round2
    rw [e1]
  · unfold compute_prices round2
    rw [e2]
  · simp [buildProduct]

/-- Witness for C3 at scenario A's base price `100` (where the derived
prices are `30` and `95`). -/
theorem compute_prices_rounds_and_retains_base_witness :
    (0 : ℚ) < 100 ∧
    ((compute_prices 100).1 = ((round ((30 : ℚ) * 100) : ℤ) : ℚ) / 100 ∧
     (compute_prices 100).2 = ((round ((95 : ℚ) * 100) : ℤ) : ℚ) / 100 ∧
     (∃ d : ℤ, (compute_prices 100).1 = (d : ℚ) / 100) ∧
     (∃ a : ℤ, (compute_prices 100).2 = (a : ℚ) / 100) ∧
     (buildProduct rowStatue emptyScrape 100).price = 100) :=
  ⟨by norm_num,
   compute_prices_rounds_and_retains_base rowStatue emptyScrape 100
     (by norm_num)⟩

/-! ### C4 — no zero clamp -/

/-- C4 counterexample.  The claim says a derived price that would round
to zero is clamped up to `0.01`; in particular base price `0.01` should
give deposit `0.01`.  The script has no clamp: `compute_prices 0.01`
returns deposit `0.00` (and prepay `0.01`). -/
theorem compute_prices_penny_deposit_zero :
    compute_prices (1 / 100) = (0, 1 / 100) ∧
    ¬ 0 < (compute_prices (1 / 100)).1 := by
  constructor
  · norm_num [compute_prices, round2, round_eq]
  · norm_num [compute_prices, round2, round_eq]

/-- C4 amended: the deriver performs no clamping, so a deposit of zero
is produced at base price `0.01`; both derived prices are strictly
positive only from base price `0.02` upward. -/
theorem compute_prices_pos_of_two_cents (b : ℚ) (hb : 1 / 50 ≤ b) :
    0 < (compute_prices b).1 ∧ 0 < (compute_prices b).2 := by
  unfold compute_prices round2
  constructor
  · have h1 : (1 : ℤ) ≤ round (b * (3 / 10) * 100) := by
      rw [round_eq, Int.le_floor]
      push_cast
      linarith
    have h2 : (0 : ℚ) < ((round (b * (3 / 10) * 100) : ℤ) : ℚ) := by
      exact_mod_cast lt_of_lt_of_le zero_lt_one h1
    positivity
  · have h1 : (1 : ℤ) ≤ round (b * (19 / 20) * 100) := by
      rw [round_eq, Int.le_floor]
      push_cast
      linarith
    have h2 : (0 : ℚ) < ((round (b * (19 / 20) * 100) : ℤ) : ℚ) := by
      exact_mod_cast lt_of_lt_of_le zero_lt_one h1
    positivity

/-- Witness for the amended C4 theorem at base price `0.02`. -/
theorem compute_prices_pos_of_two_cents_witness :
    (1 : ℚ) / 50 ≤ 2 / 100 ∧
    (0 < (compute_prices (2 / 100)).1 ∧ 0 < (compute_prices (2 / 100)).2) :=
  ⟨by norm_num, compute_prices_pos_of_two_cents (2 / 100) (by norm_num)⟩

/-! ### C5 — row validation and batch continuation -/

/-- C5 counterexample.  The claim says a row missing any of sku, base
price or name is skipped.  A row with a valid URL and price but no SKU
and no name in either name column is processed and (with an accepting
remote) ends `Created`: only the URL and the price are validated. -/
theorem missing_sku_and_name_row_is_processed :
    rowNoSkuNoName.sku = "" ∧
    strOr rowNoSkuNoName.nome_articolo rowNoSkuNoName.name = "" ∧
    (processRow false [] rowNoSkuNoName emptyScrape
      (.success (some "p1"))).2 = SyncResult.created "p1" ∧
    isSkipped (processRow false [] rowNoSkuNoName emptyScrape
      (.success (some "p1"))).2 = false := by
  refine ⟨rfl, rfl, ?_, ?_⟩ <;>
    simp +decide [processRow, processValidRow, urlValid, priceParsed,
      parseDecimal, strOr, strTrim, strSplitChar, splitBy, strToNat?,
      strStarts, rowNoSkuNoName, emptyScrape, isSkipped]

/-- C5 amended: every row of the batch yields exactly one per-row
outcome (nothing aborts the loop), and outside a dry run a row is
skipped exactly when its manufacturer URL is invalid or its price is
missing, unparsable or non-positive — a missing SKU or name does not
skip the row. -/
theorem batch_total_and_skip_iff_url_or_price :
    (∀ (dry : Bool) (catalog : List (String × String))
       (inputs : List (Row × Scraped × CreateResult)),
       (runBatch dry catalog inputs).length = inputs.length) ∧
    (∀ (catalog : List (String × String)) (row : Row) (scraped : Scraped)
       (res : CreateResult),
       isSkipped (processRow false catalog row scraped res).2 = true ↔
         (urlValid row = false ∨ priceOk row = false)) := by
  constructor
  · intro dry catalog inputs
    simp [runBatch]
  · intro catalog row scraped res
    unfold processRow processValidRow priceOk
    repeat' split
    all_goals simp_all [isSkipped]

/-! ### C6 — description composition -/

/-- C6 counterexample.  The claim says that when only the header is
present the output is the header alone.  With an ETA and no body the
script still appends the blank-paragraph separator: the output is the
header followed by `"\n\n"`, not the header alone. -/
theorem compose_header_only_keeps_separator :
    composeDescription "Q1 2026" "" "" = "Uscita prevista: Q1 2026\n\n" ∧
    composeDescription "Q1 2026" "" "" ≠ "Uscita prevista: Q1 2026" := by
  constructor <;> decide

/-- C6 amended: with no deadline and no ETA the output is exactly the
body (empty when the body is empty); with a deadline or an ETA the
output is always the header block, the blank-paragraph separator and the
body — also when the body is empty, in which case the output ends with
the separator instead of being the header alone. -/
theorem composeDescription_cases (eta deadline body : String) :
    ((eta = "" ∧ deadline = "") →
      composeDescription eta deadline body = body) ∧
    ((eta ≠ "" ∨ deadline ≠ "") →
      composeDescription eta deadline body =
        headerBlock eta deadline ++ "\n\n" ++ body) := by
  constructor
  · rintro ⟨he, hd⟩
    simp [composeDescription, headerLines, he, hd]
  · intro h
    unfold composeDescription
    rw [if_neg]
    intro hnil
    unfold headerLines at hnil
    rcases h with h | h <;> simp [h] at hnil

/-- Witness for the amended C6 theorem: header and body both present are
separated by exactly one blank paragraph. -/
theorem composeDescription_cases_witness :
    composeDescription "Q1 2026" "" "corpo" =
      headerBlock "Q1 2026" "" ++ "\n\n" ++ "corpo" :=
  (composeDescription_cases "Q1 2026" "" "corpo").2 (Or.inl (by decide))

/-! ### C7 — category matching strategies -/

/-- C7 counterexample.  The claim says the resolver's third strategy is
a substring match in either direction.  The source has only two
strategies (normalized equality, then normalized-prefix): for the target
`"Gadget"` inside the remote name `"Prova Gadget"` the claimed
three-strategy resolver finds the category, the source's resolver
returns nothing. -/
theorem resolver_lacks_substring_strategy :
    find_category_or_collection_id [("Prova Gadget", "id1")] "Gadget" =
      none ∧
    resolveCategorySpec [("Prova Gadget", "id1")] "Gadget" = some "id1" := by
  constructor <;> decide

/-- C7 amended: the resolver tries two strategies in order — equality of
the whitespace-collapsed, case-folded normalizations, then the
normalized remote name starting with the normalized target — so it finds
a category exactly when some remote name's normalization starts with the
target's normalization (equality being the reflexive case); a name with
a trailing space still matches the same remote name differing only in
case and whitespace, via the first strategy. -/
theorem find_category_isSome_iff (items : List (String × String))
    (name : String) (h : name ≠ "") :
    (find_category_or_collection_id items name).isSome = true ↔
      ∃ c ∈ items,
        strStarts (normalizeName (strTrim c.1))
          (normalizeName (aliasTarget name)) = true := by
  unfold find_category_or_collection_id
  rw [if_neg h]
  cases h1 : items.find?
      (fun c => decide
        (normalizeName (strTrim c.1) = normalizeName (aliasTarget name))) with
  | some c =>
    simp only [Option.isSome_some, true_iff]
    refine ⟨c, List.mem_of_find?_eq_some h1, ?_⟩
    have h3 := List.find?_some h1
    simp only [decide_eq_true_eq] at h3
    rw [h3]
    exact strStarts_refl _
  | none =>
    cases h2 : items.find?
        (fun c => strStarts (normalizeName (strTrim c.1))
          (normalizeName (aliasTarget name))) with
    | some c =>
      simp only [Option.map_some', Option.isSome_some, true_iff]
      refine ⟨c, List.mem_of_find?_eq_some h2, ?_⟩
      have h3 := List.find?_some h2
      simpa using h3
    | none =>
      simp only [Option.map_none', Option.isSome_none,
        Bool.false_eq_true, false_iff]
      rintro ⟨c, hc, hstart⟩
      have h4 := List.find?_eq_none.mp h2 c hc
      simp [hstart] at h4

/-- Witness for the amended C7 theorem at scenario D:
`"Statue da collezione "` (trailing space) matches the remote category
`"Statue da Collezione"`. -/
theorem find_category_isSome_iff_witness :
    (find_category_or_collection_id
      [("Statue da Collezione", "id9")] "Statue da collezione ").isSome =
      true :=
  (find_category_isSome_iff _ _ (by decide)).mpr
    ⟨("Statue da Collezione", "id9"), by decide, by decide⟩

/-! ### C8 — process exit contract -/

/-- C8 counterexample.  The claim says the exit code is `0` if and only
if at least one row reached `Created`/`Updated`.  In a dry run no row is
created, yet the process exits `0` (the nothing-created check at lines
474-476 is explicitly bypassed when `DRY_RUN=1`). -/
theorem dry_run_exit_zero_without_created :
    mainExit envDry [] [(rowStatue, emptyScrape, .success (some "p1"))] =
      0 ∧
    countCreated (runBatch true []
      [(rowStatue, emptyScrape, .success (some "p1"))]) = 0 := by
  constructor <;>
    simp +decide [mainExit, countCreated, runBatch, processRow,
      processValidRow, urlValid, priceParsed, parseDecimal, strOr, strTrim,
      strSplitChar, splitBy, strToNat?, strStarts, rowStatue, emptyScrape,
      isCreated, envDry]

/-- C8 amended: with credentials present and the precheck passed or
skipped, the exit code is `0` exactly when some row was created **or the
run is a dry run**; otherwise it is the non-zero code `2` (an
unreadable input aborts with a non-zero code before the loop, and an
input whose rows all lack the required columns yields no created row,
hence exit `2`). -/
theorem mainExit_zero_iff_created_or_dry (env : Env)
    (catalog : List (String × String))
    (inputs : List (Row × Scraped × CreateResult))
    (hk : strTrim env.apiKey ≠ "") (hs : strTrim env.siteId ≠ "")
    (hpre : env.skipPre = true ∨ env.precheckOk = true) :
    mainExit env catalog inputs = 0 ↔
      (env.dry = true ∨
        0 < countCreated (runBatch env.dry catalog inputs)) := by
  unfold mainExit
  rw [if_neg (by push_neg; exact ⟨hk, hs⟩)]
  rw [if_neg (by rcases hpre with h | h <;> simp [h])]
  by_cases hc : countCreated (runBatch env.dry catalog inputs) = 0 ∧
      ¬ env.dry = true
  · rw [if_pos hc]
    have hd : env.dry = false := by
      have h2 := hc.2
      revert h2
      cases env.dry <;> simp
    rw [hd] at hc ⊢
    simp [hc.1]
  · rw [if_neg hc]
    simp only [true_iff]
    by_cases hd : env.dry = true
    · exact Or.inl hd
    · right
      have h0 : ¬ countCreated (runBatch env.dry catalog inputs) = 0 :=
        fun h0 => hc ⟨h0, hd⟩
      omega

/-- Witness for the amended C8 theorem: a live run whose single row is
created exits `0`. -/
theorem mainExit_zero_iff_created_or_dry_witness :
    mainExit envLive [] [(rowStatue, emptyScrape, .success (some "p1"))] =
      0 :=
  (mainExit_zero_iff_created_or_dry envLive []
    [(rowStatue, emptyScrape, .success (some "p1"))]
    (by decide) (by decide) (Or.inl rfl)).mpr
    (Or.inr (by
      simp +decide [countCreated, runBatch, processRow, processValidRow,
        urlValid, priceParsed, parseDecimal, strOr, strTrim, strSplitChar,
        splitBy, strToNat?, strStarts, rowStatue, emptyScrape, isCreated,
        envLive]))

/-! ### C9 — payload pruning -/

/-- C9: the body `wix_request` serializes is exactly the pruned payload;
after pruning no dictionary value and no list element anywhere is
`None`, the empty string, the empty dictionary or the empty list; and a
payload already free of such members is sent unchanged. -/
theorem wix_request_sends_pruned_payload (p : J) :
    wix_request_body (some p) = some (prune p) ∧
    cleanJ (prune p) = true ∧
    (cleanJ p = true → prune p = p) :=
  ⟨rfl, cleanJ_prune p, prune_of_cleanJ p⟩

/-- Witness for C9 at a payload with no empty members. -/
theorem wix_request_sends_pruned_payload_witness :
    cleanJ samplePayload = true ∧ prune samplePayload = samplePayload :=
  ⟨by decide,
   (wix_request_sends_pruned_payload samplePayload).2.2 (by decide)⟩

/-! ### C10 — dry run -/

/-- C10: with `DRY_RUN=1`, a run with credentials present and the
precheck passed or skipped performs no remote mutation at all — no
product creation, media addition or collection assignment for any row —
and exits `0` even though nothing was created. -/
theorem dry_run_no_mutations_and_exit_zero (env : Env)
    (catalog : List (String × String))
    (inputs : List (Row × Scraped × CreateResult))
    (hdry : env.dry = true)
    (hk : strTrim env.apiKey ≠ "") (hs : strTrim env.siteId ≠ "")
    (hpre : env.skipPre = true ∨ env.precheckOk = true) :
    mainEffects env catalog inputs = [] ∧
    mainExit env catalog inputs = 0 := by
  constructor
  · unfold mainEffects
    rw [if_neg (by push_neg; exact ⟨hk, hs⟩)]
    rw [if_neg (by rcases hpre with h | h <;> simp [h])]
    rw [hdry]
    exact runBatch_dry_no_effects catalog inputs
  · unfold mainExit
    rw [if_neg (by push_neg; exact ⟨hk, hs⟩)]
    rw [if_neg (by rcases hpre with h | h <;> simp [h])]
    rw [hdry]
    simp

/-- Witness for C10 at the dry environment and a one-row batch. -/
theorem dry_run_no_mutations_and_exit_zero_witness :
    mainEffects envDry []
      [(rowStatue, emptyScrape, .success (some "p1"))] = [] ∧
    mainExit envDry []
      [(rowStatue, emptyScrape, .success (some "p1"))] = 0 :=
  dry_run_no_mutations_and_exit_zero envDry []
    [(rowStatue, emptyScrape, .success (some "p1"))]
    rfl (by decide) (by decide) (Or.inl rfl)

end WixPreorder
